import Mathlib

/-!
# Desired-state synthesis of the CDI operator (`pkg/operator/controller/cr-manager.go`)

A shallow embedding of `ReconcileCDI.Status`, `IsCreating`, `getNamespacedArgs` and
`GetAllResources`.

Conventions of the embedding

* A Go slice is a `List`; the nil slice and the empty slice are both `[]`.
* A Go pointer that may be nil is an `Option`; `none` is the nil pointer.
* A Go `error` result is an `Option Error`; `none` is the nil error.  A Go function
  returning `(T, error)` is a pair, so that "a value together with an error" stays
  expressible.
* The collaborators that live outside `cr-manager.go` (resource builders, the cluster
  client, the flag `sdk.DeployClusterResources`, `getConfigMap`,
  `getCertificateDefinitions`, the constant `utils.CDIPriorityClass`) are fields of
  `Env` and `Client`: every theorem holds for all of them.  A collaborator is taken to
  return when called, and to answer the same call in the same way within one run.
* The calls a run makes to those collaborators are recorded, in order, in a list of
  `Event`s returned next to the result.
* A run-time abort (failed type assertion, nil dereference) is `Outcome.panicked`.
* `ReconcileCDI` holds the pointee of `r.namespacedArgs`; `ReconcileCDIPtr` and `Memory`
  keep the pointer, for what is said about the stored defaults and the returned copy.
-/

namespace CDIOperator

/-! ## Data model -/

/-- A Go `error` value.  The cluster client distinguishes "not found" from every other
failure; the code under study never does. -/
inductive Error where
  | notFound (name : String)
  | other (msg : String)
  deriving DecidableEq

/-- Modelled from the spec: `corev1.LocalObjectReference`, the name of a pull secret
(the Go declaration is outside the sources). -/
structure LocalObjectReference where
  Name : String
  deriving DecidableEq

/-- Modelled from the spec: `sdkapi.NodePlacement`, the infrastructure node-placement
constraints of the CR (the Go declaration is outside the sources). -/
structure NodePlacement where
  NodeSelector : List (String × String)
  Tolerations : List String
  deriving DecidableEq

/-- Modelled from the spec: `cdiv1.CDIConfigSpec`, restricted to the two fields that
`getNamespacedArgs` reads (the Go declaration is outside the sources).  `LogVerbosity`
is a `*int32`. -/
structure CDIConfigSpec where
  LogVerbosity : Option Int
  ImagePullSecrets : List LocalObjectReference
  deriving DecidableEq

/-- Modelled from the spec: `cdiv1.CDISpec`, restricted to the fields that
`cr-manager.go` reads (the Go declaration is outside the sources). -/
structure CDISpec where
  ImagePullPolicy : String
  Config : Option CDIConfigSpec
  PriorityClass : Option String
  Infra : NodePlacement
  deriving DecidableEq

/-- Modelled from the spec: one status condition `(type, reason, message)`. -/
structure Condition where
  CondType : String
  Reason : String
  Message : String
  deriving DecidableEq

/-- Modelled from the spec: `sdkapi.Status`, the status sub-resource of the CR. -/
structure SdkStatus where
  Phase : String
  Conditions : List Condition
  deriving DecidableEq

/-- Modelled from the spec: `cdiv1.CDIStatus`, which embeds the `sdkapi.Status`. -/
structure CDIStatus where
  Status : SdkStatus
  deriving DecidableEq

/-- Modelled from the spec: the custom resource `cdiv1.CDI`. -/
structure CDI where
  Name : String
  Spec : CDISpec
  Status : CDIStatus
  deriving DecidableEq

/-- Modelled from the spec: a `corev1.Secret`, identified by namespace and name. -/
structure Secret where
  Namespace : String
  Name : String
  deriving DecidableEq

/-- Modelled from the spec: a `corev1.ConfigMap`, identified by namespace and name. -/
structure ConfigMap where
  Namespace : String
  Name : String
  deriving DecidableEq

/-- A value of the interface type `client.Object`, by dynamic type.
`cdi none` is the interface holding a nil `*cdiv1.CDI`; `nil` is the nil interface. -/
inductive Object where
  | cdi (cr : Option CDI)
  | secret (s : Secret)
  | configMap (c : ConfigMap)
  | resource (kind : String) (ns : String) (name : String)
  | nil
  deriving DecidableEq

/-- A `*sdkapi.Status` obtained as `&cr.Status.Status`: the address of the status field
of one CR, represented by the CR that owns the field. -/
structure StatusPtr where
  owner : CDI
  deriving DecidableEq

/-- The status a `StatusPtr` points at. -/
def StatusPtr.deref (p : StatusPtr) : SdkStatus := p.owner.Status.Status

/-- Modelled from the spec: `cdinamespaced.FactoryArgs`, the parameter set of the
namespaced builder (the Go declaration is outside the sources).  The five fields that
`getNamespacedArgs` assigns are named; `Others` stands for all remaining fields
(images, operator version, namespace), which `cr-manager.go` never touches. -/
structure FactoryArgs where
  Verbosity : String
  PullPolicy : String
  ImagePullSecrets : List LocalObjectReference
  PriorityClassName : String
  InfraNodePlacement : Option NodePlacement
  Others : List (String × String)
  deriving DecidableEq

/-- Modelled from the spec: `cdicluster.FactoryArgs`, the argument of the two cluster
builders (the Go declaration is outside the sources). -/
structure ClusterArgs where
  Namespace : String
  deriving DecidableEq

/-- Modelled from the spec: a certificate definition with its three optional objects
(the Go declaration is outside the sources). -/
structure CertificateDefinition where
  SignerSecret : Option Secret
  CertBundleConfigmap : Option ConfigMap
  TargetSecret : Option Secret
  deriving DecidableEq

/-- The event recorder handed to the failure reporter. -/
structure Recorder where
  name : String
  deriving DecidableEq

/-- One call to a collaborator, with its arguments. -/
inductive Event where
  | CreateAllStaticResources (args : ClusterArgs)
  | Get (name : String)
  | CreateAllResources (args : FactoryArgs)
  | CreateAllDynamicResources (args : ClusterArgs)
  | getCertificateDefinitions (cr : Option CDI)
  | MarkCrFailedHealing (cr : Object) (status : StatusPtr) (reason : String)
      (message : String) (recorder : Recorder)
  deriving DecidableEq

/-- The two run-time panics `cr-manager.go` can raise, by cause; the text of the Go
runtime's message is not represented. -/
inductive Panic where
  | interfaceConversion
  | nilDereference
  deriving DecidableEq

/-- How a call ends: it returns a value or the goroutine panics. -/
inductive Outcome (α : Type) where
  | returned (a : α)
  | panicked (why : Panic)
  deriving DecidableEq

/-- The cluster client `r.client`, restricted to the one read `cr-manager.go` issues:
`Get` of the `schedulingv1.PriorityClass` with the given name, returning its error. -/
structure Client where
  Get : String → Option Error

/-- The receiver `*ReconcileCDI`, with the fields `cr-manager.go` reads.  The pointer
`namespacedArgs` is set when the reconciler is built and is represented by its
pointee. -/
structure ReconcileCDI where
  client : Client
  namespacedArgs : FactoryArgs
  clusterArgs : ClusterArgs
  recorder : Recorder

/-- The functions and constants `cr-manager.go` uses and does not define. -/
structure Env where
  -- The flag `sdk.DeployClusterResources()`.
  DeployClusterResources : Bool
  -- The builder `cdicluster.CreateAllStaticResources`.
  CreateAllStaticResources : ClusterArgs → List Object × Option Error
  -- The builder `cdinamespaced.CreateAllResources`.
  CreateAllResources : FactoryArgs → List Object × Option Error
  -- The builder `cdicluster.CreateAllDynamicResources`.
  CreateAllDynamicResources : ClusterArgs → List Object × Option Error
  -- The method `r.getCertificateDefinitions`.
  getCertificateDefinitions : Option CDI → List CertificateDefinition
  -- The method `r.getConfigMap`.
  getConfigMap : Option ConfigMap × Option Error
  -- The constant `utils.CDIPriorityClass`.
  CDIPriorityClass : String

/-! ## Memory for parameter sets

`getNamespacedArgs` reads its defaults through the pointer `r.namespacedArgs` and returns
the address of a local variable.  Where the difference between a struct and a pointer to
it matters, structs of type `cdinamespaced.FactoryArgs` live in the cells of a `Memory`
and a `*FactoryArgs` is an `Option Nat`: nil, or the index of a cell. -/

/-- The cells holding `cdinamespaced.FactoryArgs` structs, by address. -/
structure Memory where
  cells : List FactoryArgs
  deriving DecidableEq

/-- The struct stored at an address, if the address is allocated. -/
def Memory.read (mem : Memory) (p : Nat) : Option FactoryArgs := mem.cells[p]?

/-- A new variable initialised with `v`: the memory with one more cell, and the address of
that cell. -/
def Memory.alloc (mem : Memory) (v : FactoryArgs) : Memory × Nat :=
  (⟨mem.cells ++ [v]⟩, mem.cells.length)

/-- The receiver `*ReconcileCDI` with `namespacedArgs` kept as the pointer it is in Go. -/
structure ReconcileCDIPtr where
  client : Client
  namespacedArgs : Option Nat
  clusterArgs : ClusterArgs
  recorder : Recorder

/-- The receiver with `*r.namespacedArgs` read from memory; `none` when the pointer is nil
or not allocated. -/
def ReconcileCDIPtr.load (r : ReconcileCDIPtr) (mem : Memory) : Option ReconcileCDI :=
  (r.namespacedArgs.bind mem.read).map
    fun defaults => ⟨r.client, defaults, r.clusterArgs, r.recorder⟩

/-! ## The functions of `cr-manager.go` -/

namespace ReconcileCDI

/-- `Status`: `return &cr.(*cdiv1.CDI).Status.Status`.  The type assertion panics on
any other dynamic type, the field address on a nil `*cdiv1.CDI`. -/
def Status (_r : ReconcileCDI) (cr : Object) : Outcome StatusPtr :=
  match cr with
  | .cdi (some c) => .returned ⟨c⟩
  | .cdi none => .panicked Panic.nilDereference
  | _ => .panicked Panic.interfaceConversion

/-- `IsCreating`: the argument is ignored; any lookup error gives `(true, nil)`,
otherwise `(configMap == nil, nil)`. -/
def IsCreating (env : Env) (_r : ReconcileCDI) (_obj : Object) : Bool × Option Error :=
  let configMap := env.getConfigMap.1
  let err := env.getConfigMap.2
  if err ≠ none then
    (true, none)
  else
    (configMap == none, none)

/-- `getNamespacedArgs`: a copy of the defaults, overridden from the CR when the CR is
non-nil.  Returns the cluster reads it issued and the resolved parameter set. -/
def getNamespacedArgs (env : Env) (r : ReconcileCDI) (cr : Option CDI) :
    List Event × FactoryArgs :=
  let result := r.namespacedArgs
  match cr with
  | none => ([], result)
  | some cr =>
    let result :=
      if cr.Spec.ImagePullPolicy ≠ "" then
        { result with PullPolicy := cr.Spec.ImagePullPolicy }
      else result
    let result :=
      match cr.Spec.Config with
      | none => result
      | some config =>
        let result :=
          match config.LogVerbosity with
          | some logVerbosity => { result with Verbosity := toString logVerbosity }
          | none => result
        if config.ImagePullSecrets.length > 0 then
          { result with ImagePullSecrets := config.ImagePullSecrets }
        else result
    let result :=
      match cr.Spec.PriorityClass with
      | some pc =>
        if pc ≠ "" then { result with PriorityClassName := pc }
        else { result with PriorityClassName := env.CDIPriorityClass }
      | none => { result with PriorityClassName := env.CDIPriorityClass }
    let lookup := result.PriorityClassName
    let result :=
      if r.client.Get lookup ≠ none then
        { result with PriorityClassName := "" }
      else result
    let result := { result with InfraNodePlacement := some cr.Spec.Infra }
    ([Event.Get lookup], result)

/-- The body of the loop over the certificate definitions: three conditional appends. -/
def appendCertificate (resources : List Object) (cert : CertificateDefinition) :
    List Object :=
  let resources :=
    match cert.SignerSecret with
    | some s => resources ++ [Object.secret s]
    | none => resources
  let resources :=
    match cert.CertBundleConfigmap with
    | some c => resources ++ [Object.configMap c]
    | none => resources
  match cert.TargetSecret with
  | some s => resources ++ [Object.secret s]
  | none => resources

/-- The loop `for _, cert := range certs` of `GetAllResources`. -/
def appendCertificates (resources : List Object) (certs : List CertificateDefinition) :
    List Object :=
  certs.foldl appendCertificate resources

/-- The failure path shared by the three stages:
`sdk.MarkCrFailedHealing(cr, r.Status(cr), reason, message, r.recorder); return nil, err`.
`r.Status(cr)` is evaluated before the reporter is called. -/
def failHealing (r : ReconcileCDI) (cr : Option CDI) (log : List Event)
    (reason : String) (message : String) (err : Error) :
    List Event × Outcome (List Object × Option Error) :=
  match Status r (Object.cdi cr) with
  | .panicked why => (log, .panicked why)
  | .returned status =>
    (log ++ [Event.MarkCrFailedHealing (Object.cdi cr) status reason message r.recorder],
      .returned ([], some err))

/-- `GetAllResources`: the four stages in order, with early return on a stage error.
Returns the collaborator calls of the run and its outcome `(resources, err)`. -/
def GetAllResources (env : Env) (r : ReconcileCDI) (crObject : Object) :
    List Event × Outcome (List Object × Option Error) :=
  match crObject with
  | .cdi cr =>
    let resources : List Object := []
    let static : List Event × List Object × Option Error :=
      if env.DeployClusterResources then
        ([Event.CreateAllStaticResources r.clusterArgs],
          env.CreateAllStaticResources r.clusterArgs)
      else ([], [], none)
    match static.2.2 with
    | some err =>
      failHealing r cr static.1 "CreateResources" "Unable to create all resources" err
    | none =>
      let resources := resources ++ static.2.1
      let args := getNamespacedArgs env r cr
      let nsrs := env.CreateAllResources args.2
      let log := static.1 ++ args.1 ++ [Event.CreateAllResources args.2]
      match nsrs.2 with
      | some err =>
        failHealing r cr log "CreateNamespaceResources"
          "Unable to create all namespaced resources" err
      | none =>
        let resources := resources ++ nsrs.1
        let drs := env.CreateAllDynamicResources r.clusterArgs
        let log := log ++ [Event.CreateAllDynamicResources r.clusterArgs]
        match drs.2 with
        | some err =>
          failHealing r cr log "CreateDynamicResources"
            "Unable to create all dynamic resources" err
        | none =>
          let resources := resources ++ drs.1
          let certs := env.getCertificateDefinitions cr
          let log := log ++ [Event.getCertificateDefinitions cr]
          (log, .returned (appendCertificates resources certs, none))
  | _ => ([], .panicked Panic.interfaceConversion)

/-- `getNamespacedArgs` with its pointers: `result := *r.namespacedArgs` reads the stored
defaults into the local variable `result` (a nil pointer panics), the body assigns to the
fields of `result` only, and `return &result` hands out the address of that variable, a
cell that did not exist before the call.  Returns the cluster reads, and the memory after
the call with the returned pointer. -/
def getNamespacedArgsPtr (env : Env) (r : ReconcileCDIPtr) (cr : Option CDI)
    (mem : Memory) : List Event × Outcome (Memory × Nat) :=
  match r.load mem with
  | none => ([], .panicked Panic.nilDereference)
  | some loaded =>
    let run := getNamespacedArgs env loaded cr
    (run.1, .returned (mem.alloc run.2))

end ReconcileCDI

/-! ## Observations on a trace -/

/-- Whether an event is a call to the failure reporter `sdk.MarkCrFailedHealing`. -/
def Event.isMarkCrFailedHealing : Event → Bool
  | .MarkCrFailedHealing _ _ _ _ _ => true
  | _ => false

/-- The calls to the failure reporter in a trace, in order. -/
def failureReports (trace : List Event) : List Event :=
  trace.filter Event.isMarkCrFailedHealing

/-! ## The certificate expansion as the spec words it -/

/-- Specification of one definition's objects, in the words of the spec (section 4.2):
its populated fields in the fixed order signer secret, bundle config map, target
secret; an absent field emits nothing. -/
def certificateObjectsSpec (cert : CertificateDefinition) : List Object :=
  cert.SignerSecret.toList.map Object.secret
    ++ cert.CertBundleConfigmap.toList.map Object.configMap
    ++ cert.TargetSecret.toList.map Object.secret

/-- Specification of the expansion of a list of definitions, in the words of the spec:
the concatenation, in definition order, of each definition's objects. -/
def expandCertificatesSpec (certs : List CertificateDefinition) : List Object :=
  certs.flatMap certificateObjectsSpec

/-- The number of populated (non-nil) fields of a certificate definition. -/
def populatedFields (cert : CertificateDefinition) : Nat :=
  (if cert.SignerSecret.isSome then 1 else 0)
    + (if cert.CertBundleConfigmap.isSome then 1 else 0)
    + (if cert.TargetSecret.isSome then 1 else 0)

/-! ## Concrete inputs used to exercise the theorems -/

/-- A default parameter set. -/
def exampleDefaults : FactoryArgs where
  Verbosity := "1"
  PullPolicy := "IfNotPresent"
  ImagePullSecrets := [⟨"operator-pull-secret"⟩]
  PriorityClassName := "operator-default"
  InfraNodePlacement := none
  Others := [("ControllerImage", "cdi-controller"), ("Namespace", "cdi")]

/-- A cluster in which exactly the listed priority classes exist. -/
def exampleClient (existing : List String) : Client where
  Get := fun name => if name ∈ existing then none else some (Error.notFound name)

/-- A reconciler over `exampleDefaults` and a cluster with the given priority classes. -/
def exampleReconciler (existing : List String) : ReconcileCDI where
  client := exampleClient existing
  namespacedArgs := exampleDefaults
  clusterArgs := ⟨"cdi"⟩
  recorder := ⟨"cdi-operator"⟩

/-- A CR with the given pull policy, config and priority class. -/
def exampleCR (policy : String) (config : Option CDIConfigSpec)
    (priorityClass : Option String) : CDI where
  Name := "cdi"
  Spec := ⟨policy, config, priorityClass, ⟨[("kubernetes.io/os", "linux")], []⟩⟩
  Status := ⟨⟨"Deployed", []⟩⟩

/-- Two certificate definitions: a fully populated one and a target-only one. -/
def exampleCerts : List CertificateDefinition :=
  [⟨some ⟨"cdi", "apiserver-signer"⟩, some ⟨"cdi", "apiserver-bundle"⟩,
      some ⟨"cdi", "apiserver-cert"⟩⟩,
    ⟨none, none, some ⟨"cdi", "uploadproxy-cert"⟩⟩]

/-- Collaborators whose builders return fixed lists, each together with the given
error; the static and the dynamic builder both emit the object `crd/cdis`, so that a
duplicate is observable. -/
def exampleEnv (flag : Bool) (staticErr nsErr dynErr : Option Error) : Env where
  DeployClusterResources := flag
  CreateAllStaticResources := fun _ =>
    ([Object.resource "CustomResourceDefinition" "" "cdis",
      Object.resource "ClusterRole" "" "cdi"], staticErr)
  CreateAllResources := fun args =>
    ([Object.resource "Deployment" "cdi" ("cdi-deployment-" ++ args.PriorityClassName),
      Object.resource "Service" "cdi" "cdi-api"], nsErr)
  CreateAllDynamicResources := fun _ =>
    ([Object.resource "CustomResourceDefinition" "" "cdis"], dynErr)
  getCertificateDefinitions := fun _ => exampleCerts
  getConfigMap := (none, none)
  CDIPriorityClass := "kubevirt-cluster-critical"

/-- A memory with two parameter sets: an unrelated one at address 0 and the operator's
defaults at address 1. -/
def exampleMemory : Memory where
  cells := [{ exampleDefaults with Verbosity := "9", PullPolicy := "Never" },
    exampleDefaults]

/-- A reconciler whose `namespacedArgs` points at address 1, over a cluster with the given
priority classes. -/
def exampleReconcilerPtr (existing : List String) : ReconcileCDIPtr where
  client := exampleClient existing
  namespacedArgs := some 1
  clusterArgs := ⟨"cdi"⟩
  recorder := ⟨"cdi-operator"⟩

/-! ## Lemmas on the certificate loop -/

open ReconcileCDI

theorem appendCertificate_eq (resources : List Object) (cert : CertificateDefinition) :
    appendCertificate resources cert = resources ++ certificateObjectsSpec cert := by
  rcases cert with ⟨signer, bundle, target⟩
  cases signer <;> cases bundle <;> cases target <;>
    simp [appendCertificate, certificateObjectsSpec]

theorem appendCertificates_eq (certs : List CertificateDefinition) :
    ∀ resources : List Object,
      appendCertificates resources certs = resources ++ expandCertificatesSpec certs := by
  induction certs with
  | nil => intro resources; simp [appendCertificates, expandCertificatesSpec]
  | cons cert rest ih =>
    intro resources
    have step : appendCertificates resources (cert :: rest)
        = appendCertificates (appendCertificate resources cert) rest := rfl
    rw [step, ih, appendCertificate_eq]
    simp [expandCertificatesSpec, List.append_assoc]

theorem appendCertificates_append (resources : List Object)
    (certs : List CertificateDefinition) :
    appendCertificates resources certs = resources ++ appendCertificates [] certs := by
  rw [appendCertificates_eq certs resources, appendCertificates_eq certs []]
  simp

theorem certificateObjectsSpec_length (cert : CertificateDefinition) :
    (certificateObjectsSpec cert).length = populatedFields cert := by
  rcases cert with ⟨signer, bundle, target⟩
  cases signer <;> cases bundle <;> cases target <;>
    simp [certificateObjectsSpec, populatedFields]

theorem expandCertificatesSpec_length (certs : List CertificateDefinition) :
    (expandCertificatesSpec certs).length = (certs.map populatedFields).sum := by
  induction certs with
  | nil => simp [expandCertificatesSpec]
  | cons cert rest ih =>
    have unfold_cons : expandCertificatesSpec (cert :: rest)
        = certificateObjectsSpec cert ++ expandCertificatesSpec rest := by
      simp [expandCertificatesSpec]
    rw [unfold_cons, List.length_append, ih, certificateObjectsSpec_length]
    simp

/-- The result of a run in which every invoked stage succeeded. -/
theorem getAllResources_of_success (env : Env) (r : ReconcileCDI) (cr : Option CDI)
    (hstatic : env.DeployClusterResources = true →
      (env.CreateAllStaticResources r.clusterArgs).2 = none)
    (hns : (env.CreateAllResources (getNamespacedArgs env r cr).2).2 = none)
    (hdyn : (env.CreateAllDynamicResources r.clusterArgs).2 = none) :
    GetAllResources env r (Object.cdi cr) =
      ((if env.DeployClusterResources then
          [Event.CreateAllStaticResources r.clusterArgs] else [])
        ++ (getNamespacedArgs env r cr).1
        ++ [Event.CreateAllResources (getNamespacedArgs env r cr).2,
            Event.CreateAllDynamicResources r.clusterArgs,
            Event.getCertificateDefinitions cr],
       Outcome.returned
        (appendCertificates
          ((if env.DeployClusterResources then
              (env.CreateAllStaticResources r.clusterArgs).1 else [])
            ++ (env.CreateAllResources (getNamespacedArgs env r cr).2).1
            ++ (env.CreateAllDynamicResources r.clusterArgs).1)
          (env.getCertificateDefinitions cr), none)) := by
  cases hflag : env.DeployClusterResources
  · simp [GetAllResources, hflag, hns, hdyn]
  · have hs := hstatic hflag
    simp [GetAllResources, hflag, hs, hns, hdyn]

/-- The run in which the static stage is enabled and fails. -/
theorem getAllResources_of_static_error (env : Env) (r : ReconcileCDI) (cr : CDI)
    (e : Error) (hflag : env.DeployClusterResources = true)
    (hstatic : (env.CreateAllStaticResources r.clusterArgs).2 = some e) :
    GetAllResources env r (Object.cdi (some cr)) =
      ([Event.CreateAllStaticResources r.clusterArgs,
        Event.MarkCrFailedHealing (Object.cdi (some cr)) ⟨cr⟩ "CreateResources"
          "Unable to create all resources" r.recorder],
       Outcome.returned ([], some e)) := by
  simp [GetAllResources, failHealing, Status, hflag, hstatic]

/-- The run in which the static stage is skipped or succeeds and the namespaced stage
fails. -/
theorem getAllResources_of_namespaced_error (env : Env) (r : ReconcileCDI) (cr : CDI)
    (e : Error)
    (hstatic : env.DeployClusterResources = true →
      (env.CreateAllStaticResources r.clusterArgs).2 = none)
    (hns : (env.CreateAllResources (getNamespacedArgs env r (some cr)).2).2 = some e) :
    GetAllResources env r (Object.cdi (some cr)) =
      ((if env.DeployClusterResources then
          [Event.CreateAllStaticResources r.clusterArgs] else [])
        ++ (getNamespacedArgs env r (some cr)).1
        ++ [Event.CreateAllResources (getNamespacedArgs env r (some cr)).2,
            Event.MarkCrFailedHealing (Object.cdi (some cr)) ⟨cr⟩
              "CreateNamespaceResources" "Unable to create all namespaced resources"
              r.recorder],
       Outcome.returned ([], some e)) := by
  cases hflag : env.DeployClusterResources
  · simp [GetAllResources, failHealing, Status, hflag, hns]
  · have hs := hstatic hflag
    simp [GetAllResources, failHealing, Status, hflag, hs, hns]

/-- The run in which the first two stages pass and the dynamic stage fails. -/
theorem getAllResources_of_dynamic_error (env : Env) (r : ReconcileCDI) (cr : CDI)
    (e : Error)
    (hstatic : env.DeployClusterResources = true →
      (env.CreateAllStaticResources r.clusterArgs).2 = none)
    (hns : (env.CreateAllResources (getNamespacedArgs env r (some cr)).2).2 = none)
    (hdyn : (env.CreateAllDynamicResources r.clusterArgs).2 = some e) :
    GetAllResources env r (Object.cdi (some cr)) =
      ((if env.DeployClusterResources then
          [Event.CreateAllStaticResources r.clusterArgs] else [])
        ++ (getNamespacedArgs env r (some cr)).1
        ++ [Event.CreateAllResources (getNamespacedArgs env r (some cr)).2,
            Event.CreateAllDynamicResources r.clusterArgs,
            Event.MarkCrFailedHealing (Object.cdi (some cr)) ⟨cr⟩
              "CreateDynamicResources" "Unable to create all dynamic resources"
              r.recorder],
       Outcome.returned ([], some e)) := by
  cases hflag : env.DeployClusterResources
  · simp [GetAllResources, failHealing, Status, hflag, hns, hdyn]
  · have hs := hstatic hflag
    simp [GetAllResources, failHealing, Status, hflag, hs, hns, hdyn]

/-- The trace of `getNamespacedArgs` holds only `Get` events. -/
theorem getNamespacedArgs_trace (env : Env) (r : ReconcileCDI) (cr : Option CDI) :
    ∀ ev ∈ (getNamespacedArgs env r cr).1, ∃ name, ev = Event.Get name := by
  cases cr with
  | none => simp [getNamespacedArgs]
  | some c => simp [getNamespacedArgs]

/-- The failure reporter is not called from `getNamespacedArgs`. -/
theorem failureReports_getNamespacedArgs (env : Env) (r : ReconcileCDI)
    (cr : Option CDI) : failureReports (getNamespacedArgs env r cr).1 = [] := by
  cases cr with
  | none => simp [getNamespacedArgs, failureReports]
  | some c => simp [getNamespacedArgs, failureReports, Event.isMarkCrFailedHealing]

/-- Every run on a non-nil CR returns; a nil error means that every invoked stage
passed, a non-nil error is the error of the first failing stage and comes with the nil
list. -/
theorem getAllResources_inv (env : Env) (r : ReconcileCDI) (cr : CDI) :
    ((env.DeployClusterResources = true →
        (env.CreateAllStaticResources r.clusterArgs).2 = none) ∧
      (env.CreateAllResources (getNamespacedArgs env r (some cr)).2).2 = none ∧
      (env.CreateAllDynamicResources r.clusterArgs).2 = none ∧
      ∃ resources, (GetAllResources env r (Object.cdi (some cr))).2
        = Outcome.returned (resources, none))
    ∨ ∃ e, (GetAllResources env r (Object.cdi (some cr))).2
        = Outcome.returned ([], some e) := by
  have hstatic : (env.DeployClusterResources = true →
        (env.CreateAllStaticResources r.clusterArgs).2 = none)
      ∨ ∃ e, env.DeployClusterResources = true ∧
        (env.CreateAllStaticResources r.clusterArgs).2 = some e := by
    cases hflag : env.DeployClusterResources with
    | false => left; intro h; cases h
    | true =>
      cases hs : (env.CreateAllStaticResources r.clusterArgs).2 with
      | none => left; intro _; rfl
      | some e => right; exact ⟨e, rfl, rfl⟩
  rcases hstatic with hs | ⟨e, hflag, hs⟩
  · cases hn : (env.CreateAllResources (getNamespacedArgs env r (some cr)).2).2 with
    | some e =>
      right
      exact ⟨e, by rw [getAllResources_of_namespaced_error env r cr e hs hn]⟩
    | none =>
      cases hd : (env.CreateAllDynamicResources r.clusterArgs).2 with
      | some e =>
        right
        exact ⟨e, by rw [getAllResources_of_dynamic_error env r cr e hs hn hd]⟩
      | none =>
        left
        refine ⟨hs, rfl, rfl, ?_⟩
        rw [getAllResources_of_success env r (some cr) hs hn hd]
        exact ⟨_, rfl⟩
  · right
    exact ⟨e, by rw [getAllResources_of_static_error env r cr e hflag hs]⟩

/-- The parameter set resolved for a present CR, field by field; the priority-class name
is left as resolved. -/
theorem getNamespacedArgs_present (env : Env) (r : ReconcileCDI) (cr : CDI) :
    (getNamespacedArgs env r (some cr)).2 =
      { Verbosity :=
          match cr.Spec.Config with
          | some config =>
            (match config.LogVerbosity with
              | some v => toString v
              | none => r.namespacedArgs.Verbosity)
          | none => r.namespacedArgs.Verbosity
        PullPolicy :=
          if cr.Spec.ImagePullPolicy ≠ "" then cr.Spec.ImagePullPolicy
          else r.namespacedArgs.PullPolicy
        ImagePullSecrets :=
          match cr.Spec.Config with
          | some config =>
            if config.ImagePullSecrets.length > 0 then config.ImagePullSecrets
            else r.namespacedArgs.ImagePullSecrets
          | none => r.namespacedArgs.ImagePullSecrets
        PriorityClassName := (getNamespacedArgs env r (some cr)).2.PriorityClassName
        InfraNodePlacement := some cr.Spec.Infra
        Others := r.namespacedArgs.Others } := by
  rcases cr with ⟨nm, ⟨policy, cfg, pc, infra⟩, st⟩
  rcases cfg with _ | ⟨_ | verb, secrets⟩ <;> rcases pc with _ | pc <;>
    by_cases hp : policy = "" <;>
    simp only [getNamespacedArgs, hp] <;>
    repeat' split
  all_goals simp_all

/-- The priority-class name resolved for a present CR: the looked-up name when the
lookup succeeds, the empty string when it fails. -/
theorem getNamespacedArgs_priorityClassName (env : Env) (r : ReconcileCDI) (cr : CDI)
    (name : String) (hlook : (getNamespacedArgs env r (some cr)).1 = [Event.Get name]) :
    (getNamespacedArgs env r (some cr)).2.PriorityClassName
      = if r.client.Get name = none then name else "" := by
  simp only [getNamespacedArgs, List.cons.injEq, Event.Get.injEq, and_true] at hlook
  simp only [getNamespacedArgs]
  rw [hlook]
  by_cases hget : r.client.Get name = none
  · simp only [hget, ne_eq, not_true_eq_false, if_false, if_true]
    exact hlook
  · simp [hget]

/-! ## The resource set assembler -/

/-- Claim C1: when every invoked builder stage succeeds, `GetAllResources` returns a nil
error and the list made of the static resources (only when the deployment flag is set),
the namespaced resources built from `getNamespacedArgs cr`, the dynamic resources and
the certificate-derived objects, concatenated in this order with nothing dropped,
merged or moved. -/
theorem getAllResources_concat (env : Env) (r : ReconcileCDI) (cr : CDI)
    (hstatic : env.DeployClusterResources = true →
      (env.CreateAllStaticResources r.clusterArgs).2 = none)
    (hns : (env.CreateAllResources (getNamespacedArgs env r (some cr)).2).2 = none)
    (hdyn : (env.CreateAllDynamicResources r.clusterArgs).2 = none) :
    (GetAllResources env r (Object.cdi (some cr))).2 =
      Outcome.returned
        ((if env.DeployClusterResources then
            (env.CreateAllStaticResources r.clusterArgs).1 else [])
          ++ (env.CreateAllResources (getNamespacedArgs env r (some cr)).2).1
          ++ (env.CreateAllDynamicResources r.clusterArgs).1
          ++ appendCertificates [] (env.getCertificateDefinitions (some cr)), none) := by
  rw [getAllResources_of_success env r (some cr) hstatic hns hdyn,
    appendCertificates_append]

/-- Concrete runs of the success path: with the flag set the static resources lead the list and
the object emitted by both the static and the dynamic builder appears twice; with the
flag cleared the list starts at the namespaced resources. -/
theorem getAllResources_concat_witness :
    (GetAllResources (exampleEnv true none none none)
        (exampleReconciler ["kubevirt-cluster-critical"])
        (Object.cdi (some (exampleCR "" none none)))).2 =
      Outcome.returned
        ([Object.resource "CustomResourceDefinition" "" "cdis",
          Object.resource "ClusterRole" "" "cdi",
          Object.resource "Deployment" "cdi" "cdi-deployment-kubevirt-cluster-critical",
          Object.resource "Service" "cdi" "cdi-api",
          Object.resource "CustomResourceDefinition" "" "cdis",
          Object.secret ⟨"cdi", "apiserver-signer"⟩,
          Object.configMap ⟨"cdi", "apiserver-bundle"⟩,
          Object.secret ⟨"cdi", "apiserver-cert"⟩,
          Object.secret ⟨"cdi", "uploadproxy-cert"⟩], none)
    ∧ (GetAllResources (exampleEnv false none none none)
        (exampleReconciler ["kubevirt-cluster-critical"])
        (Object.cdi (some (exampleCR "" none none)))).2 =
      Outcome.returned
        ([Object.resource "Deployment" "cdi" "cdi-deployment-kubevirt-cluster-critical",
          Object.resource "Service" "cdi" "cdi-api",
          Object.resource "CustomResourceDefinition" "" "cdis",
          Object.secret ⟨"cdi", "apiserver-signer"⟩,
          Object.configMap ⟨"cdi", "apiserver-bundle"⟩,
          Object.secret ⟨"cdi", "apiserver-cert"⟩,
          Object.secret ⟨"cdi", "uploadproxy-cert"⟩], none) :=
  ⟨(getAllResources_concat (exampleEnv true none none none)
      (exampleReconciler ["kubevirt-cluster-critical"]) (exampleCR "" none none)
      (fun _ => rfl) rfl rfl).trans (by decide),
   (getAllResources_concat (exampleEnv false none none none)
      (exampleReconciler ["kubevirt-cluster-critical"]) (exampleCR "" none none)
      (fun _ => rfl) rfl rfl).trans (by decide)⟩

/-- Claim C2: if one of the three builder stages (static when the flag is set,
namespaced, dynamic) returns an error `e`, the stages before it having passed, then
`GetAllResources` returns the nil list together with exactly `e`, whatever lists the
builders produced; and no run returns a non-empty list alongside an error. -/
theorem getAllResources_error_unchanged (env : Env) (r : ReconcileCDI) (cr : CDI) :
    (∀ e : Error,
      ((env.DeployClusterResources = true ∧
          (env.CreateAllStaticResources r.clusterArgs).2 = some e)
        ∨ ((env.DeployClusterResources = true →
              (env.CreateAllStaticResources r.clusterArgs).2 = none) ∧
            (env.CreateAllResources (getNamespacedArgs env r (some cr)).2).2 = some e)
        ∨ ((env.DeployClusterResources = true →
              (env.CreateAllStaticResources r.clusterArgs).2 = none) ∧
            (env.CreateAllResources (getNamespacedArgs env r (some cr)).2).2 = none ∧
            (env.CreateAllDynamicResources r.clusterArgs).2 = some e)) →
      (GetAllResources env r (Object.cdi (some cr))).2 = Outcome.returned ([], some e))
    ∧ ∀ (resources : List Object) (err : Error),
        (GetAllResources env r (Object.cdi (some cr))).2
          = Outcome.returned (resources, some err) → resources = [] := by
  constructor
  · intro e hfail
    rcases hfail with ⟨hflag, hs⟩ | ⟨hs, hn⟩ | ⟨hs, hn, hd⟩
    · rw [getAllResources_of_static_error env r cr e hflag hs]
    · rw [getAllResources_of_namespaced_error env r cr e hs hn]
    · rw [getAllResources_of_dynamic_error env r cr e hs hn hd]
  · intro resources err h
    rcases getAllResources_inv env r cr with ⟨_, _, _, ok, hok⟩ | ⟨e, he⟩
    · rw [hok] at h
      simp at h
    · rw [he] at h
      simp only [Outcome.returned.injEq, Prod.mk.injEq] at h
      exact h.1.symm

/-- A concrete failing run: the static stage has produced two resources, the namespaced
builder then returns a list together with an error; the run returns the nil list and
that error. -/
theorem getAllResources_error_unchanged_witness :
    (GetAllResources (exampleEnv true none (some (Error.other "no template")) none)
        (exampleReconciler []) (Object.cdi (some (exampleCR "" none none)))).2
      = Outcome.returned ([], some (Error.other "no template")) :=
  (getAllResources_error_unchanged
    (exampleEnv true none (some (Error.other "no template")) none)
    (exampleReconciler []) (exampleCR "" none none)).1 (Error.other "no template")
    (Or.inr (Or.inl ⟨fun _ => rfl, rfl⟩))

/-- Claim C3: a failing run of `GetAllResources` calls the failure reporter exactly
once, on the CR and the CR's own status handle, with the failing stage's id as reason
and that stage's fixed message: `CreateResources` for the static stage,
`CreateNamespaceResources` for the namespaced stage, `CreateDynamicResources` for the
dynamic stage; a run that returns a nil error calls it zero times. -/
theorem getAllResources_reports_once (env : Env) (r : ReconcileCDI) (cr : CDI) :
    (∀ e, env.DeployClusterResources = true →
        (env.CreateAllStaticResources r.clusterArgs).2 = some e →
        failureReports (GetAllResources env r (Object.cdi (some cr))).1 =
          [Event.MarkCrFailedHealing (Object.cdi (some cr)) ⟨cr⟩ "CreateResources"
            "Unable to create all resources" r.recorder])
    ∧ (∀ e, (env.DeployClusterResources = true →
          (env.CreateAllStaticResources r.clusterArgs).2 = none) →
        (env.CreateAllResources (getNamespacedArgs env r (some cr)).2).2 = some e →
        failureReports (GetAllResources env r (Object.cdi (some cr))).1 =
          [Event.MarkCrFailedHealing (Object.cdi (some cr)) ⟨cr⟩
            "CreateNamespaceResources" "Unable to create all namespaced resources"
            r.recorder])
    ∧ (∀ e, (env.DeployClusterResources = true →
          (env.CreateAllStaticResources r.clusterArgs).2 = none) →
        (env.CreateAllResources (getNamespacedArgs env r (some cr)).2).2 = none →
        (env.CreateAllDynamicResources r.clusterArgs).2 = some e →
        failureReports (GetAllResources env r (Object.cdi (some cr))).1 =
          [Event.MarkCrFailedHealing (Object.cdi (some cr)) ⟨cr⟩
            "CreateDynamicResources" "Unable to create all dynamic resources"
            r.recorder])
    ∧ (∀ resources, (GetAllResources env r (Object.cdi (some cr))).2
          = Outcome.returned (resources, none) →
        failureReports (GetAllResources env r (Object.cdi (some cr))).1 = []) := by
  have hget := failureReports_getNamespacedArgs env r (some cr)
  unfold failureReports at hget
  refine ⟨?_, ?_, ?_, ?_⟩
  · intro e hflag hs
    rw [getAllResources_of_static_error env r cr e hflag hs]
    simp [failureReports, Event.isMarkCrFailedHealing]
  · intro e hs hn
    rw [getAllResources_of_namespaced_error env r cr e hs hn]
    cases hflag : env.DeployClusterResources <;>
      simp [failureReports, Event.isMarkCrFailedHealing, hget]
  · intro e hs hn hd
    rw [getAllResources_of_dynamic_error env r cr e hs hn hd]
    cases hflag : env.DeployClusterResources <;>
      simp [failureReports, Event.isMarkCrFailedHealing, hget]
  · intro resources hres
    rcases getAllResources_inv env r cr with ⟨hs, hn, hd, _, _⟩ | ⟨e, he⟩
    · rw [getAllResources_of_success env r (some cr) hs hn hd]
      cases hflag : env.DeployClusterResources <;>
        simp [failureReports, Event.isMarkCrFailedHealing, hget]
    · rw [he] at hres
      simp at hres

/-- Concrete runs for the failure reporter: one failing run per stage, each with exactly
one report carrying that stage's id, and one successful run without report. -/
theorem getAllResources_reports_once_witness :
    failureReports (GetAllResources
        (exampleEnv true (some (Error.other "bad crd")) none none)
        (exampleReconciler []) (Object.cdi (some (exampleCR "" none none)))).1 =
      [Event.MarkCrFailedHealing (Object.cdi (some (exampleCR "" none none)))
        ⟨exampleCR "" none none⟩ "CreateResources" "Unable to create all resources"
        ⟨"cdi-operator"⟩]
    ∧ failureReports (GetAllResources
        (exampleEnv true none (some (Error.other "bad deployment")) none)
        (exampleReconciler []) (Object.cdi (some (exampleCR "" none none)))).1 =
      [Event.MarkCrFailedHealing (Object.cdi (some (exampleCR "" none none)))
        ⟨exampleCR "" none none⟩ "CreateNamespaceResources"
        "Unable to create all namespaced resources" ⟨"cdi-operator"⟩]
    ∧ failureReports (GetAllResources
        (exampleEnv false none none (some (Error.other "bad discovery")))
        (exampleReconciler []) (Object.cdi (some (exampleCR "" none none)))).1 =
      [Event.MarkCrFailedHealing (Object.cdi (some (exampleCR "" none none)))
        ⟨exampleCR "" none none⟩ "CreateDynamicResources"
        "Unable to create all dynamic resources" ⟨"cdi-operator"⟩]
    ∧ failureReports (GetAllResources (exampleEnv true none none none)
        (exampleReconciler []) (Object.cdi (some (exampleCR "" none none)))).1 = [] :=
  ⟨(getAllResources_reports_once
      (exampleEnv true (some (Error.other "bad crd")) none none)
      (exampleReconciler []) (exampleCR "" none none)).1 (Error.other "bad crd") rfl rfl,
   (getAllResources_reports_once
      (exampleEnv true none (some (Error.other "bad deployment")) none)
      (exampleReconciler []) (exampleCR "" none none)).2.1
      (Error.other "bad deployment") (fun _ => rfl) rfl,
   (getAllResources_reports_once
      (exampleEnv false none none (some (Error.other "bad discovery")))
      (exampleReconciler []) (exampleCR "" none none)).2.2.1
      (Error.other "bad discovery") (fun h => by cases h) rfl rfl,
   (getAllResources_reports_once (exampleEnv true none none none)
      (exampleReconciler []) (exampleCR "" none none)).2.2.2 _ rfl⟩

/-- Claim C4: stages after a failing stage are never attempted.  If the namespaced stage
fails, neither the dynamic builder nor the certificate expansion is invoked; if the
static stage (flag set) fails, then neither the namespaced builder, nor the priority-class
lookup of the override resolver, nor the dynamic builder, nor the certificate expansion
is invoked; if the dynamic stage fails, the certificate expansion is not invoked. -/
theorem getAllResources_fail_fast (env : Env) (r : ReconcileCDI) (cr : CDI) :
    (∀ e, (env.DeployClusterResources = true →
          (env.CreateAllStaticResources r.clusterArgs).2 = none) →
        (env.CreateAllResources (getNamespacedArgs env r (some cr)).2).2 = some e →
        (∀ a, Event.CreateAllDynamicResources a ∉
            (GetAllResources env r (Object.cdi (some cr))).1)
        ∧ (∀ c, Event.getCertificateDefinitions c ∉
            (GetAllResources env r (Object.cdi (some cr))).1))
    ∧ (∀ e, env.DeployClusterResources = true →
        (env.CreateAllStaticResources r.clusterArgs).2 = some e →
        (∀ a, Event.CreateAllResources a ∉
            (GetAllResources env r (Object.cdi (some cr))).1)
        ∧ (∀ n, Event.Get n ∉ (GetAllResources env r (Object.cdi (some cr))).1)
        ∧ (∀ a, Event.CreateAllDynamicResources a ∉
            (GetAllResources env r (Object.cdi (some cr))).1)
        ∧ (∀ c, Event.getCertificateDefinitions c ∉
            (GetAllResources env r (Object.cdi (some cr))).1))
    ∧ (∀ e, (env.DeployClusterResources = true →
          (env.CreateAllStaticResources r.clusterArgs).2 = none) →
        (env.CreateAllResources (getNamespacedArgs env r (some cr)).2).2 = none →
        (env.CreateAllDynamicResources r.clusterArgs).2 = some e →
        ∀ c, Event.getCertificateDefinitions c ∉
            (GetAllResources env r (Object.cdi (some cr))).1) := by
  have hget := getNamespacedArgs_trace env r (some cr)
  refine ⟨?_, ?_, ?_⟩
  · intro e hs hn
    rw [getAllResources_of_namespaced_error env r cr e hs hn]
    constructor
    · intro a hmem
      cases hflag : env.DeployClusterResources <;> simp [hflag] at hmem <;>
        · obtain ⟨name, hname⟩ := hget _ hmem
          cases hname
    · intro c hmem
      cases hflag : env.DeployClusterResources <;> simp [hflag] at hmem <;>
        · obtain ⟨name, hname⟩ := hget _ hmem
          cases hname
  · intro e hflag hs
    rw [getAllResources_of_static_error env r cr e hflag hs]
    simp
  · intro e hs hn hd
    rw [getAllResources_of_dynamic_error env r cr e hs hn hd]
    intro c hmem
    cases hflag : env.DeployClusterResources <;> simp [hflag] at hmem <;>
      · obtain ⟨name, hname⟩ := hget _ hmem
        cases hname

/-- Concrete failing runs: when the namespaced stage fails the trace holds no call to
the dynamic builder and no certificate expansion; when the static stage fails it holds
no call to the namespaced builder, no priority-class lookup and no call to the dynamic
builder. -/
theorem getAllResources_fail_fast_witness :
    ((∀ a, Event.CreateAllDynamicResources a ∉
        (GetAllResources (exampleEnv true none (some (Error.other "bad deployment")) none)
          (exampleReconciler []) (Object.cdi (some (exampleCR "" none none)))).1)
      ∧ (∀ c, Event.getCertificateDefinitions c ∉
        (GetAllResources (exampleEnv true none (some (Error.other "bad deployment")) none)
          (exampleReconciler []) (Object.cdi (some (exampleCR "" none none)))).1))
    ∧ ((∀ a, Event.CreateAllResources a ∉
        (GetAllResources (exampleEnv true (some (Error.other "bad crd")) none none)
          (exampleReconciler []) (Object.cdi (some (exampleCR "" none none)))).1)
      ∧ (∀ n, Event.Get n ∉
        (GetAllResources (exampleEnv true (some (Error.other "bad crd")) none none)
          (exampleReconciler []) (Object.cdi (some (exampleCR "" none none)))).1)
      ∧ (∀ a, Event.CreateAllDynamicResources a ∉
        (GetAllResources (exampleEnv true (some (Error.other "bad crd")) none none)
          (exampleReconciler []) (Object.cdi (some (exampleCR "" none none)))).1)
      ∧ (∀ c, Event.getCertificateDefinitions c ∉
        (GetAllResources (exampleEnv true (some (Error.other "bad crd")) none none)
          (exampleReconciler []) (Object.cdi (some (exampleCR "" none none)))).1)) :=
  ⟨(getAllResources_fail_fast
      (exampleEnv true none (some (Error.other "bad deployment")) none)
      (exampleReconciler []) (exampleCR "" none none)).1
      (Error.other "bad deployment") (fun _ => rfl) rfl,
   (getAllResources_fail_fast
      (exampleEnv true (some (Error.other "bad crd")) none none)
      (exampleReconciler []) (exampleCR "" none none)).2.1
      (Error.other "bad crd") rfl rfl⟩

/-- Claim C9: for every ordered list of certificate definitions, the certificate-derived
tail of the result of `GetAllResources` is the concatenation over the definitions, in
definition order, of each definition's non-nil fields in the order signer secret, bundle
config map, target secret; nil fields emit nothing, every definition contributes as many
objects as it has populated fields, and the length of the tail is the total number of
populated fields. -/
theorem getAllResources_certificate_tail (env : Env) (r : ReconcileCDI) (cr : CDI)
    (certs : List CertificateDefinition)
    (hcerts : env.getCertificateDefinitions (some cr) = certs)
    (hstatic : env.DeployClusterResources = true →
      (env.CreateAllStaticResources r.clusterArgs).2 = none)
    (hns : (env.CreateAllResources (getNamespacedArgs env r (some cr)).2).2 = none)
    (hdyn : (env.CreateAllDynamicResources r.clusterArgs).2 = none) :
    (GetAllResources env r (Object.cdi (some cr))).2 =
      Outcome.returned
        (((if env.DeployClusterResources then
              (env.CreateAllStaticResources r.clusterArgs).1 else [])
            ++ (env.CreateAllResources (getNamespacedArgs env r (some cr)).2).1
            ++ (env.CreateAllDynamicResources r.clusterArgs).1)
          ++ expandCertificatesSpec certs, none)
    ∧ (∀ cert ∈ certs, (certificateObjectsSpec cert).length = populatedFields cert)
    ∧ (expandCertificatesSpec certs).length = (certs.map populatedFields).sum := by
  refine ⟨?_, ?_, expandCertificatesSpec_length certs⟩
  · rw [getAllResources_of_success env r (some cr) hstatic hns hdyn, hcerts,
      appendCertificates_eq]
  · intro cert _
    exact certificateObjectsSpec_length cert

/-- A concrete run with a fully populated definition followed by a target-only one and,
the builders returning nothing, a result that is the tail alone: three objects in the
order signer, bundle, target, then one. -/
theorem getAllResources_certificate_tail_witness :
    (GetAllResources
        { exampleEnv false none none none with
          CreateAllResources := fun _ => ([], none)
          CreateAllDynamicResources := fun _ => ([], none) }
        (exampleReconciler []) (Object.cdi (some (exampleCR "" none none)))).2 =
      Outcome.returned
        ([Object.secret ⟨"cdi", "apiserver-signer"⟩,
          Object.configMap ⟨"cdi", "apiserver-bundle"⟩,
          Object.secret ⟨"cdi", "apiserver-cert"⟩,
          Object.secret ⟨"cdi", "uploadproxy-cert"⟩], none)
    ∧ (expandCertificatesSpec exampleCerts).length = 4 :=
  ⟨(getAllResources_certificate_tail
      { exampleEnv false none none none with
        CreateAllResources := fun _ => ([], none)
        CreateAllDynamicResources := fun _ => ([], none) }
      (exampleReconciler []) (exampleCR "" none none) exampleCerts rfl
      (fun h => by cases h) rfl rfl).1.trans (by decide),
   (getAllResources_certificate_tail
      { exampleEnv false none none none with
        CreateAllResources := fun _ => ([], none)
        CreateAllDynamicResources := fun _ => ([], none) }
      (exampleReconciler []) (exampleCR "" none none) exampleCerts rfl
      (fun h => by cases h) rfl rfl).2.2.trans (by decide)⟩

/-! ## The override resolver -/

/-- Claim C5: for every present CR and every priority-class setting, if the cluster
lookup of the candidate name (the name `getNamespacedArgs` asks the cluster for) returns
an error, `getNamespacedArgs` still returns a parameter set and its `PriorityClassName`
is the empty string. -/
theorem getNamespacedArgs_lookup_error (env : Env) (r : ReconcileCDI) (cr : CDI)
    (name : String) (e : Error)
    (hlook : (getNamespacedArgs env r (some cr)).1 = [Event.Get name])
    (herr : r.client.Get name = some e) :
    (getNamespacedArgs env r (some cr)).2.PriorityClassName = "" := by
  simp only [getNamespacedArgs, List.cons.injEq, Event.Get.injEq, and_true] at hlook
  simp only [getNamespacedArgs]
  rw [hlook, herr]
  simp

/-- The scenario of the spec: the CR asks for the class `urgent`, the cluster holds the
default class only; the resolved name is empty, neither `urgent` nor the default. -/
theorem getNamespacedArgs_lookup_error_witness :
    (getNamespacedArgs (exampleEnv true none none none)
        (exampleReconciler ["kubevirt-cluster-critical"])
        (some (exampleCR "" none (some "urgent")))).2.PriorityClassName = "" :=
  getNamespacedArgs_lookup_error (exampleEnv true none none none)
    (exampleReconciler ["kubevirt-cluster-critical"]) (exampleCR "" none (some "urgent"))
    "urgent" (Error.notFound "urgent") (by decide) (by decide)

/-- Claim C6: for every present CR, the name `getNamespacedArgs` looks up in the cluster
is the CR's `Spec.PriorityClass` when that is non-nil and non-empty and the fixed default
`utils.CDIPriorityClass` when it is nil or empty; exactly one lookup is issued, and when
it succeeds the resolved `PriorityClassName` is the looked-up name, whatever the
defaults hold. -/
theorem getNamespacedArgs_priority_class (env : Env) (r : ReconcileCDI) (cr : CDI) :
    (∀ pc, cr.Spec.PriorityClass = some pc → pc ≠ "" →
        (getNamespacedArgs env r (some cr)).1 = [Event.Get pc]
        ∧ (r.client.Get pc = none →
            (getNamespacedArgs env r (some cr)).2.PriorityClassName = pc))
    ∧ (cr.Spec.PriorityClass = none ∨ cr.Spec.PriorityClass = some "" →
        (getNamespacedArgs env r (some cr)).1 = [Event.Get env.CDIPriorityClass]
        ∧ (r.client.Get env.CDIPriorityClass = none →
            (getNamespacedArgs env r (some cr)).2.PriorityClassName
              = env.CDIPriorityClass)) := by
  constructor
  · intro pc hpc hne
    constructor
    · simp [getNamespacedArgs, hpc, hne]
    · intro hok
      simp [getNamespacedArgs, hpc, hne, hok]
  · intro hpc
    rcases hpc with hpc | hpc
    · constructor
      · simp [getNamespacedArgs, hpc]
      · intro hok
        simp [getNamespacedArgs, hpc, hok]
    · constructor
      · simp [getNamespacedArgs, hpc]
      · intro hok
        simp [getNamespacedArgs, hpc, hok]

/-- The scenarios of the spec: an empty class name in the CR with the default class
present in the cluster resolves to the default name, and a named class present in the
cluster resolves to that name; the defaults hold `operator-default` in both. -/
theorem getNamespacedArgs_priority_class_witness :
    ((getNamespacedArgs (exampleEnv true none none none)
          (exampleReconciler ["kubevirt-cluster-critical"])
          (some (exampleCR "" none (some "")))).1 = [Event.Get "kubevirt-cluster-critical"]
      ∧ (getNamespacedArgs (exampleEnv true none none none)
          (exampleReconciler ["kubevirt-cluster-critical"])
          (some (exampleCR "" none (some "")))).2.PriorityClassName
        = "kubevirt-cluster-critical")
    ∧ ((getNamespacedArgs (exampleEnv true none none none)
          (exampleReconciler ["urgent"])
          (some (exampleCR "" none (some "urgent")))).1 = [Event.Get "urgent"]
      ∧ (getNamespacedArgs (exampleEnv true none none none)
          (exampleReconciler ["urgent"])
          (some (exampleCR "" none (some "urgent")))).2.PriorityClassName = "urgent") :=
  ⟨⟨((getNamespacedArgs_priority_class (exampleEnv true none none none)
        (exampleReconciler ["kubevirt-cluster-critical"])
        (exampleCR "" none (some ""))).2 (Or.inr rfl)).1,
     ((getNamespacedArgs_priority_class (exampleEnv true none none none)
        (exampleReconciler ["kubevirt-cluster-critical"])
        (exampleCR "" none (some ""))).2 (Or.inr rfl)).2 (by decide)⟩,
   ⟨((getNamespacedArgs_priority_class (exampleEnv true none none none)
        (exampleReconciler ["urgent"])
        (exampleCR "" none (some "urgent"))).1 "urgent" rfl (by decide)).1,
     ((getNamespacedArgs_priority_class (exampleEnv true none none none)
        (exampleReconciler ["urgent"])
        (exampleCR "" none (some "urgent"))).1 "urgent" rfl (by decide)).2 (by decide)⟩⟩

/-- Claim C7: for every present CR whose `Spec.Config` is non-nil with a non-empty
`ImagePullSecrets` list, the `ImagePullSecrets` of the result of `getNamespacedArgs` are
exactly that list; when `Spec.Config` is nil or its list is empty, the result keeps the
default `ImagePullSecrets`. -/
theorem getNamespacedArgs_pull_secrets (env : Env) (r : ReconcileCDI) (cr : CDI) :
    (∀ config, cr.Spec.Config = some config → config.ImagePullSecrets ≠ [] →
        (getNamespacedArgs env r (some cr)).2.ImagePullSecrets = config.ImagePullSecrets)
    ∧ ((cr.Spec.Config = none
          ∨ ∃ config, cr.Spec.Config = some config ∧ config.ImagePullSecrets = []) →
        (getNamespacedArgs env r (some cr)).2.ImagePullSecrets
          = r.namespacedArgs.ImagePullSecrets) := by
  constructor
  · intro config hcfg hne
    have hlen : 0 < config.ImagePullSecrets.length := List.length_pos.mpr hne
    rw [getNamespacedArgs_present]
    simp [hcfg, hlen]
  · intro h
    rw [getNamespacedArgs_present]
    rcases h with hcfg | ⟨config, hcfg, hempty⟩
    · simp [hcfg]
    · simp [hcfg, hempty]

/-- Concrete CRs for the pull secrets: a CR listing two secrets gets exactly these two, in
their order and without the operator's own secret; a CR without config and a CR with an
empty list keep the operator's secret. -/
theorem getNamespacedArgs_pull_secrets_witness :
    (getNamespacedArgs (exampleEnv true none none none) (exampleReconciler [])
        (some (exampleCR "" (some ⟨none, [⟨"registry-b"⟩, ⟨"registry-a"⟩]⟩) none))
      ).2.ImagePullSecrets = [⟨"registry-b"⟩, ⟨"registry-a"⟩]
    ∧ (getNamespacedArgs (exampleEnv true none none none) (exampleReconciler [])
        (some (exampleCR "" none none))).2.ImagePullSecrets = [⟨"operator-pull-secret"⟩]
    ∧ (getNamespacedArgs (exampleEnv true none none none) (exampleReconciler [])
        (some (exampleCR "" (some ⟨some 3, []⟩) none))).2.ImagePullSecrets
      = [⟨"operator-pull-secret"⟩] :=
  ⟨(getNamespacedArgs_pull_secrets (exampleEnv true none none none) (exampleReconciler [])
      (exampleCR "" (some ⟨none, [⟨"registry-b"⟩, ⟨"registry-a"⟩]⟩) none)).1
      ⟨none, [⟨"registry-b"⟩, ⟨"registry-a"⟩]⟩ rfl (by decide),
   (getNamespacedArgs_pull_secrets (exampleEnv true none none none) (exampleReconciler [])
      (exampleCR "" none none)).2 (Or.inl rfl),
   (getNamespacedArgs_pull_secrets (exampleEnv true none none none) (exampleReconciler [])
      (exampleCR "" (some ⟨some 3, []⟩) none)).2 (Or.inr ⟨⟨some 3, []⟩, rfl, rfl⟩)⟩

/-- Claim C8, as amended: for every present CR whose `Spec.Config` is nil,
`getNamespacedArgs` returns the default parameter set unchanged in verbosity, pull secrets
and all other fields, except for three fields: `PullPolicy`, which is the CR's
`Spec.ImagePullPolicy` when that is non-empty and the default otherwise;
`PriorityClassName`, which is the name looked up in the cluster when the lookup succeeds
and the empty string when it fails; and `InfraNodePlacement`, which refers to the CR's
`Spec.Infra`. -/
theorem getNamespacedArgs_nil_config (env : Env) (r : ReconcileCDI) (cr : CDI)
    (hcfg : cr.Spec.Config = none) :
    (getNamespacedArgs env r (some cr)).2 =
      { r.namespacedArgs with
        PullPolicy :=
          if cr.Spec.ImagePullPolicy ≠ "" then cr.Spec.ImagePullPolicy
          else r.namespacedArgs.PullPolicy
        PriorityClassName := (getNamespacedArgs env r (some cr)).2.PriorityClassName
        InfraNodePlacement := some cr.Spec.Infra }
    ∧ ∀ name, (getNamespacedArgs env r (some cr)).1 = [Event.Get name] →
        (getNamespacedArgs env r (some cr)).2.PriorityClassName
          = if r.client.Get name = none then name else "" := by
  refine ⟨?_, getNamespacedArgs_priorityClassName env r cr⟩
  conv_lhs => rw [getNamespacedArgs_present]
  simp [hcfg]

/-- A CR without config and without pull policy or priority class, on a cluster holding
the default class: the result is the default parameter set with the default class name
and the CR's placement. -/
theorem getNamespacedArgs_nil_config_witness :
    (getNamespacedArgs (exampleEnv true none none none)
        (exampleReconciler ["kubevirt-cluster-critical"])
        (some (exampleCR "" none none))).2 =
      { exampleDefaults with
        PriorityClassName := "kubevirt-cluster-critical"
        InfraNodePlacement := some ⟨[("kubernetes.io/os", "linux")], []⟩ } :=
  ((getNamespacedArgs_nil_config (exampleEnv true none none none)
      (exampleReconciler ["kubevirt-cluster-critical"])
      (exampleCR "" none none) rfl).1).trans (by decide)

/-- Claim C8 as stated fails: a CR with a nil `Spec.Config` and the pull policy `Always`,
on a cluster without the default priority class, gets a parameter set that differs from
the defaults in `PullPolicy` and in `PriorityClassName`, not only in
`InfraNodePlacement`. -/
theorem getNamespacedArgs_nil_config_counterexample :
    (exampleCR "Always" none none).Spec.Config = none
    ∧ (getNamespacedArgs (exampleEnv true none none none) (exampleReconciler [])
        (some (exampleCR "Always" none none))).2
      ≠ { (exampleReconciler []).namespacedArgs with
          InfraNodePlacement := some (exampleCR "Always" none none).Spec.Infra }
    ∧ (getNamespacedArgs (exampleEnv true none none none) (exampleReconciler [])
        (some (exampleCR "Always" none none))).2.PullPolicy = "Always"
    ∧ (exampleReconciler []).namespacedArgs.PullPolicy = "IfNotPresent"
    ∧ (getNamespacedArgs (exampleEnv true none none none) (exampleReconciler [])
        (some (exampleCR "Always" none none))).2.PriorityClassName = ""
    ∧ (exampleReconciler []).namespacedArgs.PriorityClassName = "operator-default" := by
  decide

/-! ## The mode detector -/

/-- Claim C10: for every input object, `IsCreating` returns true when the config-map
lookup fails with any error or succeeds with no config map, returns false when the
lookup succeeds with a config map, and returns a nil error in every case. -/
theorem isCreating_spec (env : Env) (r : ReconcileCDI) (obj : Object) :
    (IsCreating env r obj).2 = none
    ∧ (∀ e, env.getConfigMap.2 = some e → (IsCreating env r obj).1 = true)
    ∧ (env.getConfigMap = (none, none) → (IsCreating env r obj).1 = true)
    ∧ (∀ configMap, env.getConfigMap = (some configMap, none) →
        (IsCreating env r obj).1 = false) := by
  refine ⟨?_, ?_, ?_, ?_⟩
  · by_cases herr : env.getConfigMap.2 = none <;> simp [IsCreating, herr]
  · intro e he
    simp [IsCreating, he]
  · intro h
    simp [IsCreating, h]
  · intro configMap h
    simp [IsCreating, h]

/-- Concrete lookups: a not-found error, another error returned together with a config
map, and an error-free empty answer all give `(true, nil)`; an error-free answer with a
config map gives `(false, nil)`. -/
theorem isCreating_spec_witness :
    IsCreating { exampleEnv true none none none with
        getConfigMap := (none, some (Error.notFound "cdi-config")) }
      (exampleReconciler []) Object.nil = (true, none)
    ∧ IsCreating { exampleEnv true none none none with
        getConfigMap := (some ⟨"cdi", "cdi-config"⟩, some (Error.other "timeout")) }
      (exampleReconciler []) (Object.cdi (some (exampleCR "" none none))) = (true, none)
    ∧ IsCreating { exampleEnv true none none none with getConfigMap := (none, none) }
      (exampleReconciler []) (Object.cdi none) = (true, none)
    ∧ IsCreating { exampleEnv true none none none with
        getConfigMap := (some ⟨"cdi", "cdi-config"⟩, none) }
      (exampleReconciler []) (Object.cdi (some (exampleCR "" none none))) = (false, none) :=
  ⟨Prod.ext
      ((isCreating_spec { exampleEnv true none none none with
          getConfigMap := (none, some (Error.notFound "cdi-config")) }
        (exampleReconciler []) Object.nil).2.1 (Error.notFound "cdi-config") rfl)
      (isCreating_spec { exampleEnv true none none none with
          getConfigMap := (none, some (Error.notFound "cdi-config")) }
        (exampleReconciler []) Object.nil).1,
   Prod.ext
      ((isCreating_spec { exampleEnv true none none none with
          getConfigMap := (some ⟨"cdi", "cdi-config"⟩, some (Error.other "timeout")) }
        (exampleReconciler []) (Object.cdi (some (exampleCR "" none none)))).2.1
        (Error.other "timeout") rfl)
      (isCreating_spec { exampleEnv true none none none with
          getConfigMap := (some ⟨"cdi", "cdi-config"⟩, some (Error.other "timeout")) }
        (exampleReconciler []) (Object.cdi (some (exampleCR "" none none)))).1,
   Prod.ext
      ((isCreating_spec { exampleEnv true none none none with getConfigMap := (none, none) }
        (exampleReconciler []) (Object.cdi none)).2.2.1 rfl)
      (isCreating_spec { exampleEnv true none none none with getConfigMap := (none, none) }
        (exampleReconciler []) (Object.cdi none)).1,
   Prod.ext
      ((isCreating_spec { exampleEnv true none none none with
          getConfigMap := (some ⟨"cdi", "cdi-config"⟩, none) }
        (exampleReconciler []) (Object.cdi (some (exampleCR "" none none)))).2.2.2
        ⟨"cdi", "cdi-config"⟩ rfl)
      (isCreating_spec { exampleEnv true none none none with
          getConfigMap := (some ⟨"cdi", "cdi-config"⟩, none) }
        (exampleReconciler []) (Object.cdi (some (exampleCR "" none none)))).1⟩

/-- Claim C11, as amended: `IsCreating` returns true when the lookup of the config map
fails for any reason (not-found included), and returns false only when the lookup is
error-free and returns a config map, that is when the object is confirmed present; an
error-free lookup that returns no config map gives true. -/
theorem isCreating_false_iff (env : Env) (r : ReconcileCDI) (obj : Object) :
    (∀ e, env.getConfigMap.2 = some e → (IsCreating env r obj).1 = true)
    ∧ ((IsCreating env r obj).1 = false ↔
        ∃ configMap, env.getConfigMap = (some configMap, none))
    ∧ (env.getConfigMap = (none, none) → (IsCreating env r obj).1 = true) := by
  refine ⟨?_, ?_, ?_⟩
  · intro e he
    simp [IsCreating, he]
  · rcases hcm : env.getConfigMap with ⟨configMap, err⟩
    cases err with
    | some e => simp [IsCreating, hcm]
    | none =>
      cases configMap with
      | none => simp [IsCreating, hcm]
      | some c => simp [IsCreating, hcm]
  · intro h
    simp [IsCreating, h]

/-- Concrete lookups: a not-found error gives true, and the answer false comes with an
error-free lookup that returned the config map `cdi/cdi-config`. -/
theorem isCreating_false_iff_witness :
    (IsCreating { exampleEnv true none none none with
        getConfigMap := (none, some (Error.notFound "cdi-config")) }
      (exampleReconciler []) Object.nil).1 = true
    ∧ (IsCreating { exampleEnv true none none none with
        getConfigMap := (some ⟨"cdi", "cdi-config"⟩, none) }
      (exampleReconciler []) Object.nil).1 = false :=
  ⟨(isCreating_false_iff { exampleEnv true none none none with
        getConfigMap := (none, some (Error.notFound "cdi-config")) }
      (exampleReconciler []) Object.nil).1 (Error.notFound "cdi-config") rfl,
   (isCreating_false_iff { exampleEnv true none none none with
        getConfigMap := (some ⟨"cdi", "cdi-config"⟩, none) }
      (exampleReconciler []) Object.nil).2.1.mpr ⟨⟨"cdi", "cdi-config"⟩, rfl⟩⟩

/-- Claim C11 as stated fails: on the error-free lookup that returns no config map (the
"valid empty" answer) `IsCreating` returns true, not false; and it returns false on an
error-free lookup that returns a config map, which is not a "valid empty" answer. -/
theorem isCreating_valid_empty_counterexample :
    IsCreating { exampleEnv true none none none with getConfigMap := (none, none) }
      (exampleReconciler []) (Object.cdi (some (exampleCR "" none none))) = (true, none)
    ∧ IsCreating { exampleEnv true none none none with
        getConfigMap := (some ⟨"cdi", "cdi-config"⟩, none) }
      (exampleReconciler []) (Object.cdi (some (exampleCR "" none none))) = (false, none)
    ∧ ((some (⟨"cdi", "cdi-config"⟩ : ConfigMap), (none : Option Error))
        ≠ ((none : Option ConfigMap), (none : Option Error))) := by
  decide

/-! ## Pointers: the stored defaults and the returned copy -/

/-- Reading the cell that `alloc` has just created gives the stored value. -/
theorem Memory.read_alloc_new (mem : Memory) (v : FactoryArgs) :
    (mem.alloc v).1.read (mem.alloc v).2 = some v := by
  simp [Memory.read, Memory.alloc]

/-- The `alloc` of a new cell leaves every cell allocated before as it was. -/
theorem Memory.read_alloc_old (mem : Memory) (v w : FactoryArgs) (a : Nat)
    (ha : mem.read a = some w) : (mem.alloc v).1.read a = some w := by
  unfold Memory.read at ha
  have hlt : a < mem.cells.length := by
    by_contra hge
    rw [List.getElem?_eq_none (Nat.le_of_not_lt hge)] at ha
    cases ha
  simp only [Memory.read, Memory.alloc]
  rw [List.getElem?_append_left hlt]
  exact ha

/-- The address `alloc` returns was not allocated before. -/
theorem Memory.alloc_fresh (mem : Memory) (v w : FactoryArgs) (a : Nat)
    (ha : mem.read a = some w) : (mem.alloc v).2 ≠ a := by
  unfold Memory.read at ha
  intro heq
  simp only [Memory.alloc] at heq
  rw [← heq, List.getElem?_eq_none (Nat.le_refl _)] at ha
  cases ha

/-- With a valid `namespacedArgs` pointer the call returns: the trace and the contents of
the returned cell are those of `getNamespacedArgs` run on the stored defaults. -/
theorem getNamespacedArgsPtr_of_valid (env : Env) (r : ReconcileCDIPtr) (cr : Option CDI)
    (mem : Memory) (p : Nat) (defaults : FactoryArgs)
    (hp : r.namespacedArgs = some p) (hd : mem.read p = some defaults) :
    getNamespacedArgsPtr env r cr mem =
      ((getNamespacedArgs env ⟨r.client, defaults, r.clusterArgs, r.recorder⟩ cr).1,
       Outcome.returned (mem.alloc
        (getNamespacedArgs env ⟨r.client, defaults, r.clusterArgs, r.recorder⟩ cr).2)) := by
  simp [getNamespacedArgsPtr, ReconcileCDIPtr.load, hp, hd]

/-- Claim C12: when the CR is absent (nil), `getNamespacedArgs` applies no override rule:
it issues no cluster read and the parameter set it returns equals the stored defaults in
every field, `PriorityClassName` and `InfraNodePlacement` included; and for every CR,
present or absent, the result is a copy: the returned pointer is not the pointer to the
stored defaults, and the stored defaults, like every other cell allocated before the call,
are left as they were. -/
theorem getNamespacedArgs_absent_and_copy (env : Env) (r : ReconcileCDIPtr)
    (mem : Memory) (p : Nat) (defaults : FactoryArgs)
    (hp : r.namespacedArgs = some p) (hd : mem.read p = some defaults) :
    getNamespacedArgs env ⟨r.client, defaults, r.clusterArgs, r.recorder⟩ none
      = ([], defaults)
    ∧ (∃ mem' q, getNamespacedArgsPtr env r none mem = ([], Outcome.returned (mem', q))
        ∧ mem'.read q = some defaults)
    ∧ (∀ cr : Option CDI, ∃ trace mem' q,
        getNamespacedArgsPtr env r cr mem = (trace, Outcome.returned (mem', q))
        ∧ q ≠ p
        ∧ mem'.read p = some defaults
        ∧ ∀ a v, mem.read a = some v → mem'.read a = some v) := by
  refine ⟨rfl, ?_, ?_⟩
  · refine ⟨_, _, getNamespacedArgsPtr_of_valid env r none mem p defaults hp hd, ?_⟩
    exact Memory.read_alloc_new mem defaults
  · intro cr
    have hrun := getNamespacedArgsPtr_of_valid env r cr mem p defaults hp hd
    generalize (getNamespacedArgs env ⟨r.client, defaults, r.clusterArgs, r.recorder⟩ cr).2
      = result at hrun
    refine ⟨_, (mem.alloc result).1, (mem.alloc result).2, hrun, ?_, ?_, ?_⟩
    · exact Memory.alloc_fresh mem result defaults p hd
    · exact Memory.read_alloc_old mem result defaults p hd
    · intro a v hav
      exact Memory.read_alloc_old mem result v a hav

/-- Concrete calls on a memory holding the defaults at address 1.  With an absent CR
nothing is looked up and the new cell at address 2 holds the defaults; with a CR that
overrides pull policy, verbosity, pull secrets and priority class the new cell holds the
overrides while the cell at address 1 still holds the defaults. -/
theorem getNamespacedArgs_absent_and_copy_witness :
    getNamespacedArgsPtr (exampleEnv true none none none) (exampleReconcilerPtr ["urgent"])
        none exampleMemory
      = ([], Outcome.returned (⟨exampleMemory.cells ++ [exampleDefaults]⟩, 2))
    ∧ (∃ trace mem' q,
        getNamespacedArgsPtr (exampleEnv true none none none)
            (exampleReconcilerPtr ["urgent"])
            (some (exampleCR "Always" (some ⟨some 5, [⟨"registry-a"⟩]⟩) (some "urgent")))
            exampleMemory
          = (trace, Outcome.returned (mem', q))
        ∧ q ≠ 1
        ∧ mem'.read 1 = some exampleDefaults
        ∧ ∀ a v, exampleMemory.read a = some v → mem'.read a = some v)
    ∧ ((getNamespacedArgs (exampleEnv true none none none) (exampleReconciler ["urgent"])
        (some (exampleCR "Always" (some ⟨some 5, [⟨"registry-a"⟩]⟩) (some "urgent")))).2
      = { exampleDefaults with
          Verbosity := "5"
          PullPolicy := "Always"
          ImagePullSecrets := [⟨"registry-a"⟩]
          PriorityClassName := "urgent"
          InfraNodePlacement := some ⟨[("kubernetes.io/os", "linux")], []⟩ }) :=
  ⟨by decide,
   (getNamespacedArgs_absent_and_copy (exampleEnv true none none none)
      (exampleReconcilerPtr ["urgent"]) exampleMemory 1 exampleDefaults rfl rfl).2.2
      (some (exampleCR "Always" (some ⟨some 5, [⟨"registry-a"⟩]⟩) (some "urgent"))),
   by decide⟩

/-- Where `Status` returns: exactly on the objects that are a non-nil `*cdiv1.CDI`. -/
theorem status_returned_iff (r : ReconcileCDI) (obj : Object) :
    (∃ status, Status r obj = Outcome.returned status) ↔ ∃ cr, obj = Object.cdi (some cr) := by
  constructor
  · rintro ⟨status, hstatus⟩
    cases obj with
    | cdi cr =>
      cases cr with
      | none => simp [Status] at hstatus
      | some c => exact ⟨c, rfl⟩
    | secret s => simp [Status] at hstatus
    | configMap c => simp [Status] at hstatus
    | resource kind ns name => simp [Status] at hstatus
    | nil => simp [Status] at hstatus
  · rintro ⟨cr, rfl⟩
    exact ⟨⟨cr⟩, rfl⟩

/-- Claim C13: the core never panics.  For a reconciler whose `namespacedArgs` pointer is
valid, and for every object the reconcile engine hands over, that is every non-nil
`*cdiv1.CDI`, `Status` returns a value (the CR's status handle) and `GetAllResources` runs to
completion and returns a list/error pair; and `getNamespacedArgs` returns on every CR, an
absent one included, with the address of a new cell holding the resolved parameter set. -/
theorem core_never_panics (env : Env) (rp : ReconcileCDIPtr) (mem : Memory)
    (r : ReconcileCDI) (hload : rp.load mem = some r) :
    (∀ cr : CDI, Status r (Object.cdi (some cr)) = Outcome.returned ⟨cr⟩)
    ∧ (∀ cr : CDI, ∃ resources err,
        (GetAllResources env r (Object.cdi (some cr))).2
          = Outcome.returned (resources, err))
    ∧ (∀ cr : Option CDI,
        getNamespacedArgsPtr env rp cr mem
          = ((getNamespacedArgs env r cr).1,
             Outcome.returned (mem.alloc (getNamespacedArgs env r cr).2))) := by
  refine ⟨fun _ => rfl, ?_, ?_⟩
  · intro cr
    rcases getAllResources_inv env r cr with ⟨_, _, _, resources, hok⟩ | ⟨e, he⟩
    · exact ⟨resources, none, hok⟩
    · exact ⟨[], some e, he⟩
  · intro cr
    simp only [getNamespacedArgsPtr, hload]

/-- Concrete calls with the defaults stored at address 1.  On a non-nil CR `Status` returns
the handle of that CR and a run of `GetAllResources` whose dynamic stage fails still
returns, with the nil list and the error; `getNamespacedArgs` on the absent CR returns the
address 2 of a new cell holding the defaults, without any lookup. -/
theorem core_never_panics_witness :
    Status (exampleReconciler []) (Object.cdi (some (exampleCR "" none none)))
      = Outcome.returned ⟨exampleCR "" none none⟩
    ∧ (∃ resources err,
        (GetAllResources (exampleEnv true none none (some (Error.other "bad discovery")))
          (exampleReconciler []) (Object.cdi (some (exampleCR "" none none)))).2
          = Outcome.returned (resources, err))
    ∧ (GetAllResources (exampleEnv true none none (some (Error.other "bad discovery")))
          (exampleReconciler []) (Object.cdi (some (exampleCR "" none none)))).2
        = Outcome.returned ([], some (Error.other "bad discovery"))
    ∧ getNamespacedArgsPtr
          (exampleEnv true none none (some (Error.other "bad discovery")))
          (exampleReconcilerPtr []) none exampleMemory
        = ([], Outcome.returned (⟨exampleMemory.cells ++ [exampleDefaults]⟩, 2)) :=
  ⟨(core_never_panics (exampleEnv true none none (some (Error.other "bad discovery")))
      (exampleReconcilerPtr []) exampleMemory (exampleReconciler []) rfl).1
      (exampleCR "" none none),
   (core_never_panics (exampleEnv true none none (some (Error.other "bad discovery")))
      (exampleReconcilerPtr []) exampleMemory (exampleReconciler []) rfl).2.1
      (exampleCR "" none none),
   by decide,
   ((core_never_panics (exampleEnv true none none (some (Error.other "bad discovery")))
      (exampleReconcilerPtr []) exampleMemory (exampleReconciler []) rfl).2.2 none).trans
      (by decide)⟩

end CDIOperator
